import Mathlib

/-!
Verification development for the Sesame status synchronization and caching
engine: a shallow embedding of the `SesameAPI` service (status cache, change
polling, session handling, mutating operations) and of the `WorkTimer`
elapsed-time computations, together with theorems settling the spec claims.

Network effects are made explicit: every operation that performs an HTTP call
takes the outcome of that call as a parameter, and the number of fetches it
issues is part of its result.  Timers are modelled by handles: the currently
installed polling handle, plus the list of handles passed to clearInterval.
-/

namespace Sesame

/-- Work status values returned by the service (source: WorkStatusType). -/
inductive WorkStatusType
  | online
  | paused
  | offline
deriving DecidableEq, Repr

/-- Snapshot built by getWorkStatus from the /security/me payload.  The
lastCheck payload is opaque to the cache logic and is modelled as an optional
string. -/
structure WorkStatus where
  workStatus : WorkStatusType
  lastCheck : Option String
  employeeId : String
deriving DecidableEq, Repr

/-- A registered status-change callback; `throws` records whether invoking it
raises an error. -/
structure Listener where
  id : Nat
  throws : Bool
deriving DecidableEq, Repr

/-- The mutable fields of the SesameAPI singleton, plus the durable global
settings (email / password / token / isAuthenticated) and the timer-handle
bookkeeping (`pollingInterval` is the installed handle, `cancelledTimers`
the handles passed to clearInterval). -/
structure SesameState where
  token : Option String
  storedEmail : Option String
  storedPassword : Option String
  storedToken : Option String
  storedIsAuthenticated : Bool
  workStatusCache : Option WorkStatus
  lastWorkStatusFetch : Nat
  statusChangeListeners : List Listener
  pollingInterval : Option Nat
  lastKnownStatus : Option WorkStatusType
  cancelledTimers : List Nat
deriving DecidableEq, Repr

/-- CACHE_DURATION_MS = 30000 in the source. -/
def CACHE_DURATION_MS : Nat := 30000

/-- POLLING_INTERVAL_MS = 30000 in the source. -/
def POLLING_INTERVAL_MS : Nat := 30000

/-- Outcome of the /security/me fetch: a well-formed 2xx body, a non-2xx
response, a transport failure, or a 2xx body whose shape lacks data[0]. -/
inductive FetchOutcome
  | ok (ws : WorkStatus)
  | httpError
  | netError
  | badShape
deriving DecidableEq, Repr

/-- Outcome of a mutating POST (check-in / check-out / pause). -/
inductive MutOutcome
  | ok (resp : String)
  | httpError
  | netError
deriving DecidableEq, Repr

/-- Outcome of the login POST. -/
inductive LoginOutcome
  | ok (tok : String)
  | httpError
  | netError
deriving DecidableEq, Repr

/-- getToken(): in-memory token if present, else load from global settings
(which also stores it in memory), else null. -/
def getToken (s : SesameState) : Option String × SesameState :=
  match s.token with
  | some t => (some t, s)
  | none =>
    match s.storedToken with
    | some t => (some t, { s with token := some t })
    | none => (none, s)

/-- Invoking one status-change listener; a listener with `throws` raises. -/
def invokeListener (l : Listener) : Except String Unit :=
  if l.throws then Except.error "listener failed" else Except.ok ()

/-- The forEach loop of clearWorkStatusCache: each invocation is wrapped in
try/catch, a caught error is logged and the loop continues with the next
listener.  Returns the ids of the listeners that were invoked. -/
def notifyListeners : List Listener → Except String (List Nat)
  | [] => Except.ok []
  | l :: ls =>
    match invokeListener l with
    | Except.ok _ =>
      match notifyListeners ls with
      | Except.ok rest => Except.ok (l.id :: rest)
      | Except.error e => Except.error e
    | Except.error _ =>
      match notifyListeners ls with
      | Except.ok rest => Except.ok (l.id :: rest)
      | Except.error e => Except.error e

/-- clearWorkStatusCache(): clear the cache entry and the fetch timestamp,
then notify every registered listener.  The Except layer records whether an
error escapes to the caller. -/
def clearWorkStatusCache (s : SesameState) : Except String (SesameState × List Nat) :=
  match notifyListeners s.statusChangeListeners with
  | Except.ok invoked =>
    Except.ok ({ s with workStatusCache := none, lastWorkStatusFetch := 0 }, invoked)
  | Except.error e => Except.error e

/-- Pure runner for clearWorkStatusCache, used by the operations that call
it (the error case is unreachable, as proved below). -/
def clearWorkStatusCacheRun (s : SesameState) : SesameState × List Nat :=
  match clearWorkStatusCache s with
  | Except.ok p => p
  | Except.error _ => ({ s with workStatusCache := none, lastWorkStatusFetch := 0 }, [])

/-- The cache-freshness test of getWorkStatus:
`this.workStatusCache && (now - this.lastWorkStatusFetch) < CACHE_DURATION_MS`. -/
def cacheFresh (s : SesameState) (now : Nat) : Prop :=
  s.workStatusCache.isSome = true ∧ now - s.lastWorkStatusFetch < CACHE_DURATION_MS

instance (s : SesameState) (now : Nat) : Decidable (cacheFresh s now) := by
  unfold cacheFresh; infer_instance

/-- Result of one getWorkStatus call: the returned value, the state after the
call, and how many network fetches were issued. -/
structure GetWorkStatusResult where
  result : Option WorkStatus
  state : SesameState
  fetchCount : Nat
deriving DecidableEq, Repr

/-- getWorkStatus(): return the cached snapshot while fresh; otherwise fetch
/security/me (a missing token aborts before any fetch).  On success the cache
and its timestamp are replaced; on any error the cache is cleared and null is
returned. -/
def getWorkStatus (s : SesameState) (now : Nat) (net : FetchOutcome) : GetWorkStatusResult :=
  if cacheFresh s now then
    { result := s.workStatusCache, state := s, fetchCount := 0 }
  else
    match getToken s with
    | (none, s1) =>
      { result := none
        state := { s1 with workStatusCache := none, lastWorkStatusFetch := 0 }
        fetchCount := 0 }
    | (some _, s1) =>
      match net with
      | FetchOutcome.ok ws =>
        { result := some ws
          state := { s1 with workStatusCache := some ws, lastWorkStatusFetch := now }
          fetchCount := 1 }
      | _ =>
        { result := none
          state := { s1 with workStatusCache := none, lastWorkStatusFetch := 0 }
          fetchCount := 1 }

/-- Result of one poll tick (checkForStatusChanges): the state after the tick,
whether listeners were notified, and the ids of the invoked listeners. -/
structure PollResult where
  state : SesameState
  notified : Bool
  invoked : List Nat
deriving DecidableEq, Repr

/-- checkForStatusChanges(): fetch the status through getWorkStatus; on a null
result do nothing; otherwise compare the status field with lastKnownStatus and,
when a previously known value differs from the fetched one, clear the cache
(which notifies listeners); finally record the fetched status. -/
def checkForStatusChanges (s : SesameState) (now : Nat) (net : FetchOutcome) : PollResult :=
  let r := getWorkStatus s now net
  match r.result with
  | none => { state := r.state, notified := false, invoked := [] }
  | some ws =>
    match r.state.lastKnownStatus with
    | some prev =>
      if prev ≠ ws.workStatus then
        let p := clearWorkStatusCacheRun r.state
        { state := { p.1 with lastKnownStatus := some ws.workStatus }
          notified := true
          invoked := p.2 }
      else
        { state := { r.state with lastKnownStatus := some ws.workStatus }
          notified := false
          invoked := [] }
    | none =>
      { state := { r.state with lastKnownStatus := some ws.workStatus }
        notified := false
        invoked := [] }

/-- stopPolling(): clearInterval on the installed handle, if any. -/
def stopPolling (s : SesameState) : SesameState :=
  match s.pollingInterval with
  | some h =>
    { s with pollingInterval := none, cancelledTimers := h :: s.cancelledTimers }
  | none => s

/-- startPolling(): stop any existing loop, run an initial
checkForStatusChanges, then install a fresh interval handle. -/
def startPolling (s : SesameState) (fresh now : Nat) (pollNet : FetchOutcome) : SesameState :=
  let s1 := stopPolling s
  let s2 := (checkForStatusChanges s1 now pollNet).state
  { s2 with pollingInterval := some fresh }

/-- login(): POST /security/login; on success store token and credentials in
memory and in global settings and start polling; on failure return false with
no state change. -/
def login (s : SesameState) (email password : String) (net : LoginOutcome)
    (fresh now : Nat) (pollNet : FetchOutcome) : Bool × SesameState :=
  match net with
  | LoginOutcome.ok tok =>
    let s1 := { s with token := some tok
                       storedEmail := some email
                       storedPassword := some password
                       storedToken := some tok
                       storedIsAuthenticated := true }
    (true, startPolling s1 fresh now pollNet)
  | _ => (false, s)

/-- logout(): clear the in-memory token, clear the durable settings, stop
polling. -/
def logout (s : SesameState) : SesameState :=
  stopPolling { s with token := none
                       storedEmail := none
                       storedPassword := none
                       storedToken := none
                       storedIsAuthenticated := false }

/-- checkIn(): POST check-in; on success clear the work status cache (which
notifies listeners) and return the response; on any error return null.
The returned list holds the ids of the listeners notified by the call. -/
def checkIn (s : SesameState) (employeeId : String) (net : MutOutcome) :
    Option String × SesameState × List Nat :=
  match getToken s with
  | (none, s1) => (none, s1, [])
  | (some _, s1) =>
    match net with
    | MutOutcome.ok resp =>
      let p := clearWorkStatusCacheRun s1
      (some resp, p.1, p.2)
    | _ => (none, s1, [])

/-- pause(): POST pause with a work-break id; same success/failure behaviour
as checkIn. -/
def pause (s : SesameState) (employeeId workBreakId : String) (net : MutOutcome) :
    Option String × SesameState × List Nat :=
  match getToken s with
  | (none, s1) => (none, s1, [])
  | (some _, s1) =>
    match net with
    | MutOutcome.ok resp =>
      let p := clearWorkStatusCacheRun s1
      (some resp, p.1, p.2)
    | _ => (none, s1, [])

/-- checkOut(): POST check-out; same success/failure behaviour as checkIn. -/
def checkOut (s : SesameState) (employeeId : String) (net : MutOutcome) :
    Option String × SesameState × List Nat :=
  match getToken s with
  | (none, s1) => (none, s1, [])
  | (some _, s1) =>
    match net with
    | MutOutcome.ok resp =>
      let p := clearWorkStatusCacheRun s1
      (some resp, p.1, p.2)
    | _ => (none, s1, [])

/-- The background poll loop: one checkForStatusChanges per tick, ticks spaced
POLLING_INTERVAL_MS apart.  Returns the final state and how many ticks
notified the listeners. -/
def pollRun : SesameState → Nat → List FetchOutcome → SesameState × Nat
  | s, _, [] => (s, 0)
  | s, now, net :: rest =>
    let r := checkForStatusChanges s now net
    let p := pollRun r.state (now + POLLING_INTERVAL_MS) rest
    (p.1, (if r.notified then 1 else 0) + p.2)

/-- Number of adjacent changes in a status sequence, given the previously
known status (none when no status has been observed yet). -/
def countFlips (prev : Option WorkStatusType) : List WorkStatusType → Nat
  | [] => 0
  | x :: xs =>
    (match prev with
     | none => 0
     | some p => if p = x then 0 else 1) + countFlips (some x) xs

/-- A date string as seen by `new Date(...)`: either unparseable (NaN) or
denoting a definite epoch-millisecond instant. -/
inductive DateStr
  | invalid
  | stamp (ms : Int)
deriving DecidableEq, Repr

/-- One end of a check interval; `date` is none when the field is null,
undefined, or empty. -/
structure CheckMoment where
  date : Option DateStr
deriving DecidableEq, Repr

/-- EmployeeCheck as consumed by WorkTimer.  `checkType := none` models a
non-string checkType value. -/
structure EmployeeCheck where
  id : String
  checkType : Option String
  accumulatedSeconds : Option Int
  checkIn : Option CheckMoment
  checkOut : Option CheckMoment
deriving DecidableEq, Repr

/-- WorkTimer.parseDate: null/empty gives null, an unparseable string gives
null (NaN check), otherwise the parsed instant. -/
def parseDate : Option DateStr → Option Int
  | none => none
  | some DateStr.invalid => none
  | some (DateStr.stamp ms) => some ms

/-- JS String.prototype.toLowerCase as used by the source, mapped over the
characters of the string. -/
def strLower (s : String) : String :=
  String.mk (s.data.map Char.toLower)

/-- The lowercased check type used by calculateWorkSeconds, with the source's
sentinel for non-string values. -/
def checkTypeLower (c : EmployeeCheck) : String :=
  match c.checkType with
  | some t => strLower t
  | none => "unknown"

/-- Whether the server supplied a positive accumulatedSeconds number. -/
def accPos (c : EmployeeCheck) : Bool :=
  match c.accumulatedSeconds with
  | some a => decide (0 < a)
  | none => false

/-- WorkTimer.getWorkDurationSeconds: a closed check with a positive
accumulatedSeconds yields that value; otherwise the duration comes from the
parsed dates (checkOut - checkIn when closed, now - checkIn when open),
floored at zero; a missing or unparseable start yields zero, as does a closed
check whose end date fails to parse. -/
def getWorkDurationSeconds (c : EmployeeCheck) (status : WorkStatusType)
    (nowMillis : Int) : Int :=
  if c.checkOut.isSome && accPos c then
    c.accumulatedSeconds.getD 0
  else
    match parseDate (c.checkIn.bind CheckMoment.date) with
    | none => 0
    | some start =>
      match parseDate (c.checkOut.bind CheckMoment.date) with
      | some endMs => max 0 ((endMs - start).fdiv 1000)
      | none =>
        if c.checkOut.isNone then max 0 ((nowMillis - start).fdiv 1000)
        else 0

/-- WorkTimer.calculateWorkSeconds: sum getWorkDurationSeconds over the checks
whose lowercased type is "work", skipping the rest. -/
def calculateWorkSeconds : List EmployeeCheck → WorkStatusType → Int → Int
  | [], _, _ => 0
  | c :: rest, status, nowMillis =>
    (if checkTypeLower c = "work" then getWorkDurationSeconds c status nowMillis else 0)
      + calculateWorkSeconds rest status nowMillis

/-- The predicate of the find in calculateActivePauseSeconds: a string-typed
check whose lowercased type is "pause" and whose checkOut is null. -/
def isActivePauseCheck (c : EmployeeCheck) : Bool :=
  match c.checkType with
  | some t => strLower t == "pause" && c.checkOut.isNone
  | none => false

/-- WorkTimer.calculateActivePauseSeconds: find the first active pause check;
zero when none exists, its start date is falsy, or the start fails to parse;
otherwise now - start in whole seconds floored at zero. -/
def calculateActivePauseSeconds (checks : List EmployeeCheck) (nowMillis : Int) : Int :=
  match checks.find? isActivePauseCheck with
  | none => 0
  | some c =>
    match c.checkIn.bind CheckMoment.date with
    | none => 0
    | some d =>
      match parseDate (some d) with
      | none => 0
      | some pauseStart => max 0 ((nowMillis - pauseStart).fdiv 1000)

/-- Modelled from the spec: the claim's notion of a check of type "Work"
(checkType is a string equal to "work" ignoring case). -/
def specIsWork (c : EmployeeCheck) : Bool :=
  match c.checkType with
  | some t => strLower t == "work"
  | none => false

/-- Modelled from the spec: per-check work seconds for a closed check computed
from its dates, defined only when both dates parse. -/
def specClosedByDates (c : EmployeeCheck) : Option Int :=
  match parseDate (c.checkIn.bind CheckMoment.date),
        parseDate (c.checkOut.bind CheckMoment.date) with
  | some s, some e => some (max 0 ((e - s).fdiv 1000))
  | _, _ => none

/-- Modelled from the spec: per-check work seconds.  Closed with a positive
accumulatedSeconds: that value verbatim; otherwise closed: date difference in
whole seconds floored at zero; open: now minus checkIn in whole seconds
floored at zero.  Undefined when a needed date fails to parse. -/
def specWorkCheckSeconds (nowMillis : Int) (c : EmployeeCheck) : Option Int :=
  if c.checkOut.isSome then
    match c.accumulatedSeconds with
    | some a => if 0 < a then some a else specClosedByDates c
    | none => specClosedByDates c
  else
    match parseDate (c.checkIn.bind CheckMoment.date) with
    | some s => some (max 0 ((nowMillis - s).fdiv 1000))
    | none => none

/-- Modelled from the spec: the work-seconds total, summing
specWorkCheckSeconds over every check of type "Work". -/
def specWorkSeconds (nowMillis : Int) : List EmployeeCheck → Option Int
  | [] => some 0
  | c :: rest =>
    match specWorkSeconds nowMillis rest with
    | none => none
    | some total =>
      if specIsWork c then
        match specWorkCheckSeconds nowMillis c with
        | some d => some (d + total)
        | none => none
      else some total

/-- An online snapshot used by concrete scenarios. -/
def wsOnline : WorkStatus :=
  { workStatus := WorkStatusType.online, lastCheck := none, employeeId := "emp1" }

/-- A paused snapshot used by concrete scenarios. -/
def wsPaused : WorkStatus :=
  { workStatus := WorkStatusType.paused, lastCheck := none, employeeId := "emp1" }

/-- A freshly authenticated service state with an empty cache. -/
def baseState : SesameState :=
  { token := some "tk"
    storedEmail := none
    storedPassword := none
    storedToken := none
    storedIsAuthenticated := true
    workStatusCache := none
    lastWorkStatusFetch := 0
    statusChangeListeners := []
    pollingInterval := none
    lastKnownStatus := none
    cancelledTimers := [] }

/-- An authenticated state with two registered listeners, the second of which
throws when invoked. -/
def mutState : SesameState :=
  { baseState with
      statusChangeListeners := [{ id := 1, throws := false }, { id := 2, throws := true }] }

/-- Scenario: a successful fetch at time 0 populates the cache. -/
def scenarioSetup : GetWorkStatusResult :=
  getWorkStatus baseState 0 (FetchOutcome.ok wsOnline)

/-- Scenario: first observed call, at time 29999 (the cache, fetched at 0, is
still fresh). -/
def scenarioFirst : GetWorkStatusResult :=
  getWorkStatus scenarioSetup.state 29999 (FetchOutcome.ok wsOnline)

/-- Scenario: second observed call at time 59998, 29999 ms after the first
(the cache is now 59998 ms old, hence stale), fetching a changed status. -/
def scenarioSecond : GetWorkStatusResult :=
  getWorkStatus scenarioFirst.state 59998 (FetchOutcome.ok wsPaused)

/-- A closed work check carrying a positive accumulatedSeconds but no
checkIn date at all. -/
def checkNoStart : EmployeeCheck :=
  { id := "x1"
    checkType := some "Work"
    accumulatedSeconds := some 500
    checkIn := none
    checkOut := some { date := some (DateStr.stamp 0) } }

/-- A closed work check whose server-accumulated seconds (500) disagree with
its dates (400 seconds apart). -/
def checkAccum : EmployeeCheck :=
  { id := "w1"
    checkType := some "Work"
    accumulatedSeconds := some 500
    checkIn := some { date := some (DateStr.stamp 0) }
    checkOut := some { date := some (DateStr.stamp 400000) } }

/-- An open pause check that started at epoch 0. -/
def pauseCheck : EmployeeCheck :=
  { id := "pz"
    checkType := some "Pause"
    accumulatedSeconds := none
    checkIn := some { date := some (DateStr.stamp 0) }
    checkOut := none }

/-- An open work check with no dates and no accumulated seconds at all. -/
def checkOpenNoDate : EmployeeCheck :=
  { id := "nd"
    checkType := some "Work"
    accumulatedSeconds := none
    checkIn := none
    checkOut := none }

/-!  Helper lemmas shared by the claim proofs. -/

lemma notifyListeners_ok (ls : List Listener) :
    notifyListeners ls = Except.ok (ls.map Listener.id) := by
  induction ls with
  | nil => rfl
  | cons l ls ih =>
    cases hinv : invokeListener l <;> simp [notifyListeners, hinv, ih]

lemma clearWorkStatusCache_eq (s : SesameState) :
    clearWorkStatusCache s =
      Except.ok ({ s with workStatusCache := none, lastWorkStatusFetch := 0 },
        s.statusChangeListeners.map Listener.id) := by
  simp [clearWorkStatusCache, notifyListeners_ok]

lemma clearWorkStatusCacheRun_eq (s : SesameState) :
    clearWorkStatusCacheRun s =
      ({ s with workStatusCache := none, lastWorkStatusFetch := 0 },
        s.statusChangeListeners.map Listener.id) := by
  simp [clearWorkStatusCacheRun, clearWorkStatusCache_eq]

lemma getToken_state (s : SesameState) :
    (getToken s).2 = { s with token := (getToken s).1 } := by
  obtain ⟨tok, se, sp, st, sia, wsc, lf, scl, pi, lks, ct⟩ := s
  cases tok <;> cases st <;> rfl

lemma getWorkStatus_fresh {s : SesameState} {now : Nat} (net : FetchOutcome)
    (h : cacheFresh s now) :
    getWorkStatus s now net =
      { result := s.workStatusCache, state := s, fetchCount := 0 } := by
  simp [getWorkStatus, h]

lemma getWorkStatus_stale_ok {s s1 : SesameState} {now : Nat} {t : String}
    (ws : WorkStatus) (h : ¬ cacheFresh s now) (ht : getToken s = (some t, s1)) :
    getWorkStatus s now (FetchOutcome.ok ws) =
      { result := some ws
        state := { s1 with workStatusCache := some ws, lastWorkStatusFetch := now }
        fetchCount := 1 } := by
  simp [getWorkStatus, h, ht]

lemma getWorkStatus_stale_fail {s s1 : SesameState} {now : Nat} {t : String}
    {net : FetchOutcome} (h : ¬ cacheFresh s now) (ht : getToken s = (some t, s1))
    (hf : ∀ w, net ≠ FetchOutcome.ok w) :
    getWorkStatus s now net =
      { result := none
        state := { s1 with workStatusCache := none, lastWorkStatusFetch := 0 }
        fetchCount := 1 } := by
  cases net with
  | ok w => exact absurd rfl (hf w)
  | httpError => simp [getWorkStatus, h, ht]
  | netError => simp [getWorkStatus, h, ht]
  | badShape => simp [getWorkStatus, h, ht]

lemma getWorkStatus_stale_notoken {s s1 : SesameState} {now : Nat}
    (net : FetchOutcome) (h : ¬ cacheFresh s now) (ht : getToken s = (none, s1)) :
    getWorkStatus s now net =
      { result := none
        state := { s1 with workStatusCache := none, lastWorkStatusFetch := 0 }
        fetchCount := 0 } := by
  simp [getWorkStatus, h, ht]

lemma getToken_snd_cache (s : SesameState) :
    ((getToken s).2).workStatusCache = s.workStatusCache := by
  rw [getToken_state]

lemma getToken_snd_lastFetch (s : SesameState) :
    ((getToken s).2).lastWorkStatusFetch = s.lastWorkStatusFetch := by
  rw [getToken_state]

lemma getToken_snd_listeners (s : SesameState) :
    ((getToken s).2).statusChangeListeners = s.statusChangeListeners := by
  rw [getToken_state]

lemma getToken_snd_token (s : SesameState) :
    ((getToken s).2).token = (getToken s).1 := by
  rw [getToken_state]

lemma getToken_eta (s : SesameState) : getToken s = ((getToken s).1, (getToken s).2) :=
  rfl

lemma checkIn_ok_eq {s s1 : SesameState} {t : String} (empId resp : String)
    (hg : getToken s = (some t, s1)) :
    checkIn s empId (MutOutcome.ok resp) =
      (some resp, { s1 with workStatusCache := none, lastWorkStatusFetch := 0 },
        s1.statusChangeListeners.map Listener.id) := by
  simp [checkIn, hg, clearWorkStatusCacheRun_eq]

lemma pause_ok_eq {s s1 : SesameState} {t : String} (empId wb resp : String)
    (hg : getToken s = (some t, s1)) :
    pause s empId wb (MutOutcome.ok resp) =
      (some resp, { s1 with workStatusCache := none, lastWorkStatusFetch := 0 },
        s1.statusChangeListeners.map Listener.id) := by
  simp [pause, hg, clearWorkStatusCacheRun_eq]

lemma checkOut_ok_eq {s s1 : SesameState} {t : String} (empId resp : String)
    (hg : getToken s = (some t, s1)) :
    checkOut s empId (MutOutcome.ok resp) =
      (some resp, { s1 with workStatusCache := none, lastWorkStatusFetch := 0 },
        s1.statusChangeListeners.map Listener.id) := by
  simp [checkOut, hg, clearWorkStatusCacheRun_eq]

lemma checkIn_fail_eq {s s1 : SesameState} {t : String} {net : MutOutcome}
    (empId : String) (hg : getToken s = (some t, s1))
    (hf : ∀ r, net ≠ MutOutcome.ok r) :
    checkIn s empId net = (none, s1, []) := by
  cases net with
  | ok r => exact absurd rfl (hf r)
  | httpError => simp [checkIn, hg]
  | netError => simp [checkIn, hg]

lemma pause_fail_eq {s s1 : SesameState} {t : String} {net : MutOutcome}
    (empId wb : String) (hg : getToken s = (some t, s1))
    (hf : ∀ r, net ≠ MutOutcome.ok r) :
    pause s empId wb net = (none, s1, []) := by
  cases net with
  | ok r => exact absurd rfl (hf r)
  | httpError => simp [pause, hg]
  | netError => simp [pause, hg]

lemma checkOut_fail_eq {s s1 : SesameState} {t : String} {net : MutOutcome}
    (empId : String) (hg : getToken s = (some t, s1))
    (hf : ∀ r, net ≠ MutOutcome.ok r) :
    checkOut s empId net = (none, s1, []) := by
  cases net with
  | ok r => exact absurd rfl (hf r)
  | httpError => simp [checkOut, hg]
  | netError => simp [checkOut, hg]

lemma checkIn_notoken_eq {s s1 : SesameState} (empId : String) (net : MutOutcome)
    (hg : getToken s = (none, s1)) : checkIn s empId net = (none, s1, []) := by
  simp [checkIn, hg]

lemma pause_notoken_eq {s s1 : SesameState} (empId wb : String) (net : MutOutcome)
    (hg : getToken s = (none, s1)) : pause s empId wb net = (none, s1, []) := by
  simp [pause, hg]

lemma checkOut_notoken_eq {s s1 : SesameState} (empId : String) (net : MutOutcome)
    (hg : getToken s = (none, s1)) : checkOut s empId net = (none, s1, []) := by
  simp [checkOut, hg]

lemma getWorkStatus_fetchCount_one {s : SesameState} {t : String} (now : Nat)
    (net : FetchOutcome) (hc : s.workStatusCache = none) (htok : s.token = some t) :
    (getWorkStatus s now net).fetchCount = 1 := by
  have hnf : ¬ cacheFresh s now := by simp [cacheFresh, hc]
  have hg : getToken s = (some t, s) := by simp [getToken, htok]
  cases net with
  | ok w => rw [getWorkStatus_stale_ok w hnf hg]
  | httpError =>
    rw [getWorkStatus_stale_fail hnf hg (fun w h => FetchOutcome.noConfusion h)]
  | netError =>
    rw [getWorkStatus_stale_fail hnf hg (fun w h => FetchOutcome.noConfusion h)]
  | badShape =>
    rw [getWorkStatus_stale_fail hnf hg (fun w h => FetchOutcome.noConfusion h)]

/-!  Claim theorems. -/

/-- Claim C7: the invalidate operation clearWorkStatusCache clears the cache
entry unconditionally and synchronously notifies every registered subscriber;
even when some listeners throw, every listener in the list is invoked, and no
listener error propagates to the caller (the call always returns ok). -/
theorem clearWorkStatusCache_isolates_listeners (s : SesameState) :
    clearWorkStatusCache s =
      Except.ok ({ s with workStatusCache := none, lastWorkStatusFetch := 0 },
        s.statusChangeListeners.map Listener.id) :=
  clearWorkStatusCache_eq s

/-- Claim C3: when the status fetch fails (missing token, network error,
non-2xx response, or malformed shape), getWorkStatus invalidates the cache
(sets it to empty with a zero timestamp) and surfaces the failure to the
caller as an empty (none) result; and a cached value is only ever returned
while fresh, never past its TTL and never after a failed refresh. -/
theorem getWorkStatus_failure_invalidates (s : SesameState) (now : Nat)
    (net : FetchOutcome) :
    (¬ cacheFresh s now → (∀ w, net ≠ FetchOutcome.ok w) →
      (getWorkStatus s now net).result = none ∧
      (getWorkStatus s now net).state.workStatusCache = none ∧
      (getWorkStatus s now net).state.lastWorkStatusFetch = 0) ∧
    (∀ w, (getWorkStatus s now net).result = some w →
      (getWorkStatus s now net).fetchCount = 0 →
      cacheFresh s now ∧ s.workStatusCache = some w) := by
  constructor
  · intro h hf
    cases ht : (getToken s).1 with
    | some t =>
      have hg : getToken s = (some t, (getToken s).2) := by rw [← ht]
      rw [getWorkStatus_stale_fail h hg hf]
      exact ⟨rfl, rfl, rfl⟩
    | none =>
      have hg : getToken s = (none, (getToken s).2) := by rw [← ht]
      rw [getWorkStatus_stale_notoken net h hg]
      exact ⟨rfl, rfl, rfl⟩
  · intro w hres hfc
    by_cases h : cacheFresh s now
    · rw [getWorkStatus_fresh net h] at hres
      exact ⟨h, hres⟩
    · cases ht : (getToken s).1 with
      | some t =>
        have hg : getToken s = (some t, (getToken s).2) := by rw [← ht]
        cases net with
        | ok w2 => rw [getWorkStatus_stale_ok w2 h hg] at hfc; cases hfc
        | httpError =>
          rw [getWorkStatus_stale_fail h hg (fun x hx => FetchOutcome.noConfusion hx)] at hres
          cases hres
        | netError =>
          rw [getWorkStatus_stale_fail h hg (fun x hx => FetchOutcome.noConfusion hx)] at hres
          cases hres
        | badShape =>
          rw [getWorkStatus_stale_fail h hg (fun x hx => FetchOutcome.noConfusion hx)] at hres
          cases hres
      | none =>
        have hg : getToken s = (none, (getToken s).2) := by rw [← ht]
        rw [getWorkStatus_stale_notoken net h hg] at hres
        cases hres

/-- Witness for C3 at a concrete input: stale empty cache, transport failure. -/
theorem getWorkStatus_failure_invalidates_witness :
    (getWorkStatus baseState 50000 FetchOutcome.netError).result = none ∧
    (getWorkStatus baseState 50000 FetchOutcome.netError).state.workStatusCache = none ∧
    (getWorkStatus baseState 50000 FetchOutcome.netError).state.lastWorkStatusFetch = 0 :=
  (getWorkStatus_failure_invalidates baseState 50000 FetchOutcome.netError).1
    (by decide) (fun w h => FetchOutcome.noConfusion h)

/-- Claim C4: every mutating operation (checkIn, pause, checkOut) that gets a
successful response clears the status cache and notifies every registered
subscriber before returning, and afterwards every getWorkStatus call issues a
fetch instead of serving a cached value. -/
theorem mutations_invalidate_on_success (s : SesameState) (empId wb resp t : String)
    (ht : (getToken s).1 = some t) :
    ((checkIn s empId (MutOutcome.ok resp)).1 = some resp ∧
     (checkIn s empId (MutOutcome.ok resp)).2.1.workStatusCache = none ∧
     (checkIn s empId (MutOutcome.ok resp)).2.1.lastWorkStatusFetch = 0 ∧
     (checkIn s empId (MutOutcome.ok resp)).2.2 =
       s.statusChangeListeners.map Listener.id ∧
     ∀ now net,
       (getWorkStatus (checkIn s empId (MutOutcome.ok resp)).2.1 now net).fetchCount = 1) ∧
    ((pause s empId wb (MutOutcome.ok resp)).1 = some resp ∧
     (pause s empId wb (MutOutcome.ok resp)).2.1.workStatusCache = none ∧
     (pause s empId wb (MutOutcome.ok resp)).2.1.lastWorkStatusFetch = 0 ∧
     (pause s empId wb (MutOutcome.ok resp)).2.2 =
       s.statusChangeListeners.map Listener.id ∧
     ∀ now net,
       (getWorkStatus (pause s empId wb (MutOutcome.ok resp)).2.1 now net).fetchCount = 1) ∧
    ((checkOut s empId (MutOutcome.ok resp)).1 = some resp ∧
     (checkOut s empId (MutOutcome.ok resp)).2.1.workStatusCache = none ∧
     (checkOut s empId (MutOutcome.ok resp)).2.1.lastWorkStatusFetch = 0 ∧
     (checkOut s empId (MutOutcome.ok resp)).2.2 =
       s.statusChangeListeners.map Listener.id ∧
     ∀ now net,
       (getWorkStatus (checkOut s empId (MutOutcome.ok resp)).2.1 now net).fetchCount = 1) := by
  have hg : getToken s = (some t, (getToken s).2) := by rw [← ht]
  have htk : ((getToken s).2).token = some t := by rw [getToken_snd_token, ht]
  refine ⟨?_, ?_, ?_⟩
  · rw [checkIn_ok_eq empId resp hg]
    refine ⟨rfl, rfl, rfl, ?_, ?_⟩
    · rw [getToken_snd_listeners]
    · intro now net
      exact getWorkStatus_fetchCount_one now net rfl htk
  · rw [pause_ok_eq empId wb resp hg]
    refine ⟨rfl, rfl, rfl, ?_, ?_⟩
    · rw [getToken_snd_listeners]
    · intro now net
      exact getWorkStatus_fetchCount_one now net rfl htk
  · rw [checkOut_ok_eq empId resp hg]
    refine ⟨rfl, rfl, rfl, ?_, ?_⟩
    · rw [getToken_snd_listeners]
    · intro now net
      exact getWorkStatus_fetchCount_one now net rfl htk

/-- Witness for C4 at a concrete input, with a throwing second listener. -/
theorem mutations_invalidate_on_success_witness :
    (checkIn mutState "emp1" (MutOutcome.ok "r")).2.1.workStatusCache = none ∧
    (checkIn mutState "emp1" (MutOutcome.ok "r")).2.2 = [1, 2] ∧
    (getWorkStatus (pause mutState "emp1" "br" (MutOutcome.ok "r")).2.1 3
      FetchOutcome.netError).fetchCount = 1 := by
  have h := mutations_invalidate_on_success mutState "emp1" "br" "r" "tk" rfl
  exact ⟨h.1.2.1, h.1.2.2.2.1, h.2.1.2.2.2.2 3 FetchOutcome.netError⟩

/-- Claim C5: a failed remote call leaves the state alone: checkIn, pause and
checkOut return none, keep the cache entry and its timestamp untouched and
notify nobody; a failed login returns false and changes nothing at all (no
token or credentials stored). -/
theorem failed_calls_preserve_state (s : SesameState) (empId wb email pw : String)
    (net : MutOutcome) (lnet : LoginOutcome) (fresh now : Nat)
    (pollNet : FetchOutcome) (hm : ∀ r, net ≠ MutOutcome.ok r)
    (hl : ∀ tok, lnet ≠ LoginOutcome.ok tok) :
    (checkIn s empId net).1 = none ∧
    (checkIn s empId net).2.1.workStatusCache = s.workStatusCache ∧
    (checkIn s empId net).2.1.lastWorkStatusFetch = s.lastWorkStatusFetch ∧
    (checkIn s empId net).2.2 = [] ∧
    (pause s empId wb net).1 = none ∧
    (pause s empId wb net).2.1.workStatusCache = s.workStatusCache ∧
    (pause s empId wb net).2.1.lastWorkStatusFetch = s.lastWorkStatusFetch ∧
    (pause s empId wb net).2.2 = [] ∧
    (checkOut s empId net).1 = none ∧
    (checkOut s empId net).2.1.workStatusCache = s.workStatusCache ∧
    (checkOut s empId net).2.1.lastWorkStatusFetch = s.lastWorkStatusFetch ∧
    (checkOut s empId net).2.2 = [] ∧
    login s email pw lnet fresh now pollNet = (false, s) := by
  have hci : checkIn s empId net = (none, (getToken s).2, []) := by
    cases ht : (getToken s).1 with
    | some t => exact checkIn_fail_eq empId (by rw [← ht]) hm
    | none => exact checkIn_notoken_eq empId net (by rw [← ht])
  have hpa : pause s empId wb net = (none, (getToken s).2, []) := by
    cases ht : (getToken s).1 with
    | some t => exact pause_fail_eq empId wb (by rw [← ht]) hm
    | none => exact pause_notoken_eq empId wb net (by rw [← ht])
  have hco : checkOut s empId net = (none, (getToken s).2, []) := by
    cases ht : (getToken s).1 with
    | some t => exact checkOut_fail_eq empId (by rw [← ht]) hm
    | none => exact checkOut_notoken_eq empId net (by rw [← ht])
  have hlog : login s email pw lnet fresh now pollNet = (false, s) := by
    cases lnet with
    | ok tok => exact absurd rfl (hl tok)
    | httpError => rfl
    | netError => rfl
  rw [hci, hpa, hco]
  exact ⟨rfl, getToken_snd_cache s, getToken_snd_lastFetch s, rfl,
    rfl, getToken_snd_cache s, getToken_snd_lastFetch s, rfl,
    rfl, getToken_snd_cache s, getToken_snd_lastFetch s, rfl, hlog⟩

/-- Witness for C5 at a concrete input: non-2xx mutation and failed login. -/
theorem failed_calls_preserve_state_witness :
    (checkIn mutState "emp1" MutOutcome.httpError).1 = none ∧
    (checkIn mutState "emp1" MutOutcome.httpError).2.2 = [] ∧
    login mutState "e" "p" LoginOutcome.netError 5 0 FetchOutcome.badShape =
      (false, mutState) := by
  have h := failed_calls_preserve_state mutState "emp1" "br" "e" "p"
    MutOutcome.httpError LoginOutcome.netError 5 0 FetchOutcome.badShape
    (fun r hr => MutOutcome.noConfusion hr) (fun tok htok => LoginOutcome.noConfusion htok)
  exact ⟨h.1, h.2.2.2.1, h.2.2.2.2.2.2.2.2.2.2.2.2⟩

lemma getWorkStatus_fetchCount_le_one (s : SesameState) (now : Nat)
    (net : FetchOutcome) : (getWorkStatus s now net).fetchCount ≤ 1 := by
  by_cases h : cacheFresh s now
  · rw [getWorkStatus_fresh net h]
    exact Nat.zero_le 1
  · cases ht : (getToken s).1 with
    | none =>
      rw [getWorkStatus_stale_notoken net h (by rw [← ht])]
      exact Nat.zero_le 1
    | some t =>
      have hg : getToken s = (some t, (getToken s).2) := by rw [← ht]
      cases net with
      | ok w => rw [getWorkStatus_stale_ok w h hg]
      | httpError =>
        rw [getWorkStatus_stale_fail h hg (fun w hw => FetchOutcome.noConfusion hw)]
      | netError =>
        rw [getWorkStatus_stale_fail h hg (fun w hw => FetchOutcome.noConfusion hw)]
      | badShape =>
        rw [getWorkStatus_stale_fail h hg (fun w hw => FetchOutcome.noConfusion hw)]

lemma getToken_none_parts {s : SesameState} (ht : (getToken s).1 = none) :
    s.token = none ∧ s.storedToken = none := by
  obtain ⟨tok, se, sp, st, sia, wsc, lf, scl, pi, lks, ct⟩ := s
  cases tok <;> cases st <;> simp_all [getToken]

/-- Claim C1 counterexample: starting from a state whose cache was populated
by a successful fetch at time 0, two getWorkStatus calls at times 29999 and
59998 (both within 30 seconds of the moment t0 = 29999, with no invalidation
and no mutating operation between them) issue exactly one fetch in total yet
return structurally different snapshots: the first call serves the cached
online snapshot, the second refetches and returns the paused one. -/
theorem cache_freshness_counterexample :
    scenarioFirst.fetchCount + scenarioSecond.fetchCount ≤ 1 ∧
    scenarioFirst.result = some wsOnline ∧
    scenarioSecond.result = some wsPaused ∧
    scenarioFirst.result ≠ scenarioSecond.result := by decide

/-- Claim C1 as amended: two getWorkStatus calls within 30 seconds of t0 with
successful fetch outcomes issue at most one network fetch; and when the cache
entry at the first call is empty or was itself fetched no earlier than t0,
both calls return structurally identical results. -/
theorem cache_freshness_amended (s : SesameState) (t0 n1 n2 : Nat)
    (w1 w2 : WorkStatus) (h01 : t0 ≤ n1) (h12 : n1 ≤ n2)
    (h2 : n2 < t0 + CACHE_DURATION_MS) :
    (getWorkStatus s n1 (FetchOutcome.ok w1)).fetchCount +
      (getWorkStatus (getWorkStatus s n1 (FetchOutcome.ok w1)).state n2
        (FetchOutcome.ok w2)).fetchCount ≤ 1 ∧
    ((s.workStatusCache = none ∨ t0 ≤ s.lastWorkStatusFetch) →
      (getWorkStatus s n1 (FetchOutcome.ok w1)).result =
        (getWorkStatus (getWorkStatus s n1 (FetchOutcome.ok w1)).state n2
          (FetchOutcome.ok w2)).result) := by
  by_cases hf1 : cacheFresh s n1
  · rw [getWorkStatus_fresh (FetchOutcome.ok w1) hf1]
    constructor
    · exact Nat.zero_add _ ▸ getWorkStatus_fetchCount_le_one s n2 (FetchOutcome.ok w2)
    · intro hc
      have hlf : t0 ≤ s.lastWorkStatusFetch := by
        rcases hc with hc | hc
        · exact absurd hf1.1 (by rw [hc]; simp)
        · exact hc
      have hf2 : cacheFresh s n2 :=
        ⟨hf1.1, by have := hf1.2; unfold CACHE_DURATION_MS at *; omega⟩
      rw [getWorkStatus_fresh (FetchOutcome.ok w2) hf2]
  · cases ht : (getToken s).1 with
    | some t =>
      have hg : getToken s = (some t, (getToken s).2) := by rw [← ht]
      rw [getWorkStatus_stale_ok w1 hf1 hg]
      have hf2 : cacheFresh
          { (getToken s).2 with workStatusCache := some w1, lastWorkStatusFetch := n1 } n2 := by
        refine ⟨rfl, ?_⟩
        show n2 - n1 < CACHE_DURATION_MS
        unfold CACHE_DURATION_MS at *
        omega
      rw [getWorkStatus_fresh (FetchOutcome.ok w2) hf2]
      exact ⟨Nat.le_refl 1, fun _ => rfl⟩
    | none =>
      obtain ⟨htk, hstk⟩ := getToken_none_parts ht
      have hs2 : (getToken s).2 = s := by
        rw [getToken_state, ht, ← htk]
      have hg : getToken s = (none, s) := by
        rw [getToken_eta, ht, hs2]
      rw [getWorkStatus_stale_notoken (FetchOutcome.ok w1) hf1 hg]
      have hf2 : ¬ cacheFresh
          { s with workStatusCache := none, lastWorkStatusFetch := 0 } n2 := by
        intro hcf
        exact absurd hcf.1 (by simp)
      have hg2 : getToken
          { s with workStatusCache := none, lastWorkStatusFetch := 0 } =
          (none, { s with workStatusCache := none, lastWorkStatusFetch := 0 }) := by
        simp [getToken, htk, hstk]
      rw [getWorkStatus_stale_notoken (FetchOutcome.ok w2) hf2 hg2]
      exact ⟨Nat.zero_le 1, fun _ => rfl⟩

/-- Witness for the amended C1 at a concrete input: empty cache, both calls
inside the window, one fetch in total, identical results. -/
theorem cache_freshness_amended_witness :
    (getWorkStatus baseState 10 (FetchOutcome.ok wsOnline)).fetchCount +
      (getWorkStatus (getWorkStatus baseState 10 (FetchOutcome.ok wsOnline)).state 20
        (FetchOutcome.ok wsPaused)).fetchCount ≤ 1 ∧
    (getWorkStatus baseState 10 (FetchOutcome.ok wsOnline)).result =
      (getWorkStatus (getWorkStatus baseState 10 (FetchOutcome.ok wsOnline)).state 20
        (FetchOutcome.ok wsPaused)).result := by
  have h := cache_freshness_amended baseState 5 10 20 wsOnline wsPaused
    (by decide) (by decide) (by decide)
  exact ⟨h.1, h.2 (Or.inl rfl)⟩

lemma poll_stale {s : SesameState} {now : Nat}
    (hst : s.lastWorkStatusFetch + CACHE_DURATION_MS ≤ now) : ¬ cacheFresh s now := by
  intro h
  exact absurd h.2 (by omega)

lemma poll_step_first {s : SesameState} {now : Nat} {t : String} (ws : WorkStatus)
    (htok : s.token = some t) (hst : s.lastWorkStatusFetch + CACHE_DURATION_MS ≤ now)
    (hlk : s.lastKnownStatus = none) :
    checkForStatusChanges s now (FetchOutcome.ok ws) =
      { state := { s with workStatusCache := some ws, lastWorkStatusFetch := now,
                          lastKnownStatus := some ws.workStatus }
        notified := false
        invoked := [] } := by
  have hg : getToken s = (some t, s) := by simp [getToken, htok]
  have hr := getWorkStatus_stale_ok ws (poll_stale hst) hg
  simp [checkForStatusChanges, hr, hlk]

lemma poll_step_same {s : SesameState} {now : Nat} {t : String} {p : WorkStatusType}
    (ws : WorkStatus) (htok : s.token = some t)
    (hst : s.lastWorkStatusFetch + CACHE_DURATION_MS ≤ now)
    (hlk : s.lastKnownStatus = some p) (hp : p = ws.workStatus) :
    checkForStatusChanges s now (FetchOutcome.ok ws) =
      { state := { s with workStatusCache := some ws, lastWorkStatusFetch := now,
                          lastKnownStatus := some ws.workStatus }
        notified := false
        invoked := [] } := by
  have hg : getToken s = (some t, s) := by simp [getToken, htok]
  have hr := getWorkStatus_stale_ok ws (poll_stale hst) hg
  simp [checkForStatusChanges, hr, hlk, hp]

lemma poll_step_flip {s : SesameState} {now : Nat} {t : String} {p : WorkStatusType}
    (ws : WorkStatus) (htok : s.token = some t)
    (hst : s.lastWorkStatusFetch + CACHE_DURATION_MS ≤ now)
    (hlk : s.lastKnownStatus = some p) (hp : p ≠ ws.workStatus) :
    checkForStatusChanges s now (FetchOutcome.ok ws) =
      { state := { s with workStatusCache := none, lastWorkStatusFetch := 0,
                          lastKnownStatus := some ws.workStatus }
        notified := true
        invoked := s.statusChangeListeners.map Listener.id } := by
  have hg : getToken s = (some t, s) := by simp [getToken, htok]
  have hr := getWorkStatus_stale_ok ws (poll_stale hst) hg
  simp [checkForStatusChanges, hr, hlk, hp, clearWorkStatusCacheRun_eq]

/-- Claim C2: over a poll run whose successful fetches happen one poll
interval apart (so the cached snapshot is stale at every tick), the listeners
get exactly one notification event per detected status flip — none for a tick
that observes the same status as the previous one, and none for the very
first observation. -/
theorem poll_notifies_once_per_flip (wss : List WorkStatus) (s : SesameState)
    (now : Nat) (t : String) (htok : s.token = some t)
    (hst : s.lastWorkStatusFetch + CACHE_DURATION_MS ≤ now) :
    (pollRun s now (wss.map FetchOutcome.ok)).2 =
      countFlips s.lastKnownStatus (wss.map WorkStatus.workStatus) := by
  induction wss generalizing s now with
  | nil => rfl
  | cons w rest ih =>
    rw [List.map_cons, List.map_cons]
    cases hlk : s.lastKnownStatus with
    | none =>
      rw [pollRun, poll_step_first w htok hst hlk]
      have hrec := ih
        { s with
            workStatusCache := some w
            lastWorkStatusFetch := now
            lastKnownStatus := some w.workStatus }
        (now + POLLING_INTERVAL_MS) htok
        (by show now + CACHE_DURATION_MS ≤ now + POLLING_INTERVAL_MS
            unfold CACHE_DURATION_MS POLLING_INTERVAL_MS
            omega)
      simp only [countFlips]
      simpa using hrec
    | some p =>
      by_cases hp : p = w.workStatus
      · rw [pollRun, poll_step_same w htok hst hlk hp]
        have hrec := ih
          { s with
              workStatusCache := some w
              lastWorkStatusFetch := now
              lastKnownStatus := some w.workStatus }
          (now + POLLING_INTERVAL_MS) htok
          (by show now + CACHE_DURATION_MS ≤ now + POLLING_INTERVAL_MS
              unfold CACHE_DURATION_MS POLLING_INTERVAL_MS
              omega)
        simp only [countFlips, if_pos hp]
        simpa using hrec
      · rw [pollRun, poll_step_flip w htok hst hlk hp]
        have hrec := ih
          { s with
              workStatusCache := none
              lastWorkStatusFetch := 0
              lastKnownStatus := some w.workStatus }
          (now + POLLING_INTERVAL_MS) htok
          (by show 0 + CACHE_DURATION_MS ≤ now + POLLING_INTERVAL_MS
              unfold CACHE_DURATION_MS POLLING_INTERVAL_MS
              omega)
        simp only [countFlips, if_neg hp]
        simpa using hrec

/-- Witness for C2 at a concrete input: the sequence online, online, paused,
online has exactly two flips, hence exactly two notification events. -/
theorem poll_notifies_once_per_flip_witness :
    (pollRun baseState 30000
      ([wsOnline, wsOnline, wsPaused, wsOnline].map FetchOutcome.ok)).2 = 2 := by
  have h := poll_notifies_once_per_flip [wsOnline, wsOnline, wsPaused, wsOnline]
    baseState 30000 "tk" rfl (by decide)
  rw [h]
  decide

lemma getToken_snd_polling (s : SesameState) :
    ((getToken s).2).pollingInterval = s.pollingInterval := by
  rw [getToken_state]

lemma getToken_snd_cancelled (s : SesameState) :
    ((getToken s).2).cancelledTimers = s.cancelledTimers := by
  rw [getToken_state]

lemma getWorkStatus_state_preserves (s : SesameState) (now : Nat) (net : FetchOutcome) :
    (getWorkStatus s now net).state.pollingInterval = s.pollingInterval ∧
    (getWorkStatus s now net).state.cancelledTimers = s.cancelledTimers := by
  by_cases h : cacheFresh s now
  · rw [getWorkStatus_fresh net h]
    exact ⟨rfl, rfl⟩
  · cases ht : (getToken s).1 with
    | none =>
      rw [getWorkStatus_stale_notoken net h (by rw [← ht])]
      exact ⟨getToken_snd_polling s, getToken_snd_cancelled s⟩
    | some t =>
      have hg : getToken s = (some t, (getToken s).2) := by rw [← ht]
      cases net with
      | ok w =>
        rw [getWorkStatus_stale_ok w h hg]
        exact ⟨getToken_snd_polling s, getToken_snd_cancelled s⟩
      | httpError =>
        rw [getWorkStatus_stale_fail h hg (fun x hx => FetchOutcome.noConfusion hx)]
        exact ⟨getToken_snd_polling s, getToken_snd_cancelled s⟩
      | netError =>
        rw [getWorkStatus_stale_fail h hg (fun x hx => FetchOutcome.noConfusion hx)]
        exact ⟨getToken_snd_polling s, getToken_snd_cancelled s⟩
      | badShape =>
        rw [getWorkStatus_stale_fail h hg (fun x hx => FetchOutcome.noConfusion hx)]
        exact ⟨getToken_snd_polling s, getToken_snd_cancelled s⟩

lemma checkForStatusChanges_state_preserves (s : SesameState) (now : Nat)
    (net : FetchOutcome) :
    (checkForStatusChanges s now net).state.pollingInterval = s.pollingInterval ∧
    (checkForStatusChanges s now net).state.cancelledTimers = s.cancelledTimers := by
  obtain ⟨hp, hc⟩ := getWorkStatus_state_preserves s now net
  simp only [checkForStatusChanges]
  cases hres : (getWorkStatus s now net).result with
  | none => exact ⟨hp, hc⟩
  | some ws =>
    cases hlk : (getWorkStatus s now net).state.lastKnownStatus with
    | none => exact ⟨hp, hc⟩
    | some prev =>
      dsimp only
      by_cases hne : prev ≠ ws.workStatus
      · rw [if_pos hne, clearWorkStatusCacheRun_eq]
        exact ⟨hp, hc⟩
      · rw [if_neg hne]
        exact ⟨hp, hc⟩

lemma stopPolling_pollingInterval (s : SesameState) :
    (stopPolling s).pollingInterval = none := by
  cases hp : s.pollingInterval <;> simp [stopPolling, hp]

lemma stopPolling_token (s : SesameState) : (stopPolling s).token = s.token := by
  cases hp : s.pollingInterval <;> simp [stopPolling, hp]

lemma stopPolling_storedEmail (s : SesameState) :
    (stopPolling s).storedEmail = s.storedEmail := by
  cases hp : s.pollingInterval <;> simp [stopPolling, hp]

lemma stopPolling_storedPassword (s : SesameState) :
    (stopPolling s).storedPassword = s.storedPassword := by
  cases hp : s.pollingInterval <;> simp [stopPolling, hp]

lemma stopPolling_storedToken (s : SesameState) :
    (stopPolling s).storedToken = s.storedToken := by
  cases hp : s.pollingInterval <;> simp [stopPolling, hp]

lemma stopPolling_storedIsAuthenticated (s : SesameState) :
    (stopPolling s).storedIsAuthenticated = s.storedIsAuthenticated := by
  cases hp : s.pollingInterval <;> simp [stopPolling, hp]

lemma stopPolling_cancels {s : SesameState} {h : Nat}
    (hp : s.pollingInterval = some h) : h ∈ (stopPolling s).cancelledTimers := by
  simp [stopPolling, hp]

/-- Claim C8: startPolling installs the fresh timer handle after clearing any
prior one (the prior handle is passed to clearInterval, so no further callback
of the old loop fires); a successful login starts the poll loop; logout stops
it (cancelling the installed handle) and clears the in-memory token and every
durable credential field. -/
theorem single_poll_loop (s : SesameState) (fresh now : Nat)
    (pollNet : FetchOutcome) (email pw tok : String) :
    (startPolling s fresh now pollNet).pollingInterval = some fresh ∧
    (∀ h, s.pollingInterval = some h →
      h ∈ (startPolling s fresh now pollNet).cancelledTimers) ∧
    (login s email pw (LoginOutcome.ok tok) fresh now pollNet).2.pollingInterval =
      some fresh ∧
    (logout s).pollingInterval = none ∧
    (logout s).token = none ∧
    (logout s).storedToken = none ∧
    (logout s).storedEmail = none ∧
    (logout s).storedPassword = none ∧
    (logout s).storedIsAuthenticated = false ∧
    (∀ h, s.pollingInterval = some h → h ∈ (logout s).cancelledTimers) := by
  refine ⟨rfl, ?_, rfl, ?_, ?_, ?_, ?_, ?_, ?_, ?_⟩
  · intro h hp
    have h1 : (startPolling s fresh now pollNet).cancelledTimers =
        (checkForStatusChanges (stopPolling s) now pollNet).state.cancelledTimers := rfl
    rw [h1, (checkForStatusChanges_state_preserves (stopPolling s) now pollNet).2]
    exact stopPolling_cancels hp
  · exact stopPolling_pollingInterval _
  · show (stopPolling _).token = none
    rw [stopPolling_token]
  · show (stopPolling _).storedToken = none
    rw [stopPolling_storedToken]
  · show (stopPolling _).storedEmail = none
    rw [stopPolling_storedEmail]
  · show (stopPolling _).storedPassword = none
    rw [stopPolling_storedPassword]
  · show (stopPolling _).storedIsAuthenticated = false
    rw [stopPolling_storedIsAuthenticated]
  · intro h hp
    exact stopPolling_cancels hp

/-- Witness for C8 at a concrete input: a state with an installed handle 7. -/
theorem single_poll_loop_witness :
    7 ∈ (startPolling { baseState with pollingInterval := some 7 } 9 0
      FetchOutcome.netError).cancelledTimers ∧
    7 ∈ (logout { baseState with pollingInterval := some 7 }).cancelledTimers ∧
    (logout { baseState with pollingInterval := some 7 }).token = none := by
  have h := single_poll_loop { baseState with pollingInterval := some 7 } 9 0
    FetchOutcome.netError "e" "p" "tok"
  exact ⟨h.2.1 7 rfl, h.2.2.2.2.2.2.2.2.2 7 rfl, h.2.2.2.2.1⟩

lemma work_iff (c : EmployeeCheck) :
    checkTypeLower c = "work" ↔ specIsWork c = true := by
  cases h : c.checkType with
  | none =>
    simp only [checkTypeLower, specIsWork, h]
    decide
  | some t => simp [checkTypeLower, specIsWork, h]

lemma getWorkDuration_closed_eq {c : EmployeeCheck} {d : Int}
    (status : WorkStatusType) (now : Int)
    (hcond : (c.checkOut.isSome && accPos c) = false)
    (h : specClosedByDates c = some d) :
    getWorkDurationSeconds c status now = d := by
  unfold specClosedByDates at h
  cases hs : parseDate (c.checkIn.bind CheckMoment.date) with
  | none => simp [hs] at h
  | some st =>
    cases he : parseDate (c.checkOut.bind CheckMoment.date) with
    | none => simp [hs, he] at h
    | some e =>
      simp [hs, he] at h
      simp [getWorkDurationSeconds, hcond, hs, he]
      exact h

lemma getWorkDuration_eq_spec (c : EmployeeCheck) (status : WorkStatusType)
    (now d : Int) (h : specWorkCheckSeconds now c = some d) :
    getWorkDurationSeconds c status now = d := by
  unfold specWorkCheckSeconds at h
  cases hco : c.checkOut with
  | none =>
    simp only [hco, Option.isSome_none, Bool.false_eq_true, if_false] at h
    cases hs : parseDate (c.checkIn.bind CheckMoment.date) with
    | none => simp [hs] at h
    | some st =>
      simp [hs] at h
      simp [getWorkDurationSeconds, hco, hs]
      exact h
  | some mo =>
    have hcoS : c.checkOut.isSome = true := by rw [hco]; rfl
    simp only [hcoS, if_true] at h
    cases hacc : c.accumulatedSeconds with
    | none =>
      rw [hacc] at h
      dsimp only at h
      exact getWorkDuration_closed_eq status now (by simp [accPos, hacc]) h
    | some a =>
      rw [hacc] at h
      dsimp only at h
      by_cases hpos : 0 < a
      · rw [if_pos hpos] at h
        have hcond : (c.checkOut.isSome && accPos c) = true := by
          simp [hcoS, accPos, hacc, hpos]
        simp [getWorkDurationSeconds, hcond, hacc]
        exact Option.some.inj h
      · rw [if_neg hpos] at h
        exact getWorkDuration_closed_eq status now (by simp [accPos, hacc, hpos]) h

/-- Claim C6: the per-refresh work-seconds computation refines the spec
algorithm: whenever the spec-side total (closed check with positive
accumulatedSeconds taken verbatim, otherwise date difference floored at zero,
open check measured against now, summed over the checks of type Work) is
defined, calculateWorkSeconds returns exactly that total, for every status. -/
theorem calculateWorkSeconds_refines_spec (checks : List EmployeeCheck)
    (status : WorkStatusType) (now v : Int)
    (h : specWorkSeconds now checks = some v) :
    calculateWorkSeconds checks status now = v := by
  induction checks generalizing v with
  | nil =>
    simp [specWorkSeconds] at h
    simpa [calculateWorkSeconds] using h
  | cons c rest ih =>
    simp only [specWorkSeconds] at h
    cases hrest : specWorkSeconds now rest with
    | none => rw [hrest] at h; simp at h
    | some total =>
      rw [hrest] at h
      dsimp only at h
      by_cases hw : specIsWork c = true
      · rw [if_pos hw] at h
        cases hd : specWorkCheckSeconds now c with
        | none => rw [hd] at h; simp at h
        | some dd =>
          rw [hd] at h
          dsimp only at h
          have hv : dd + total = v := Option.some.inj h
          simp only [calculateWorkSeconds]
          rw [if_pos ((work_iff c).mpr hw),
            getWorkDuration_eq_spec c status now dd hd, ih total hrest]
          exact hv
      · rw [if_neg hw] at h
        have hv : total = v := Option.some.inj h
        simp only [calculateWorkSeconds]
        rw [if_neg (fun hcw => hw ((work_iff c).mp hcw)), ih total hrest]
        simpa using hv

/-- Witness for C6 at the spec's own scenario: a closed work check with
accumulatedSeconds 500 whose dates imply 400 seconds computes as 500. -/
theorem calculateWorkSeconds_refines_spec_witness :
    specWorkSeconds 1000000 [checkAccum] = some 500 ∧
    calculateWorkSeconds [checkAccum] WorkStatusType.online 1000000 = 500 :=
  ⟨by decide,
    calculateWorkSeconds_refines_spec [checkAccum] WorkStatusType.online 1000000 500
      (by decide)⟩

lemma accPos_getD {c : EmployeeCheck} (h : accPos c = true) :
    0 < c.accumulatedSeconds.getD 0 := by
  unfold accPos at h
  cases hacc : c.accumulatedSeconds with
  | none => rw [hacc] at h; cases h
  | some a =>
    rw [hacc] at h
    simp at h
    simpa [hacc] using h

lemma getWorkDurationSeconds_nonneg (c : EmployeeCheck) (status : WorkStatusType)
    (now : Int) : 0 ≤ getWorkDurationSeconds c status now := by
  unfold getWorkDurationSeconds
  split
  · next hcond =>
    rw [Bool.and_eq_true] at hcond
    exact le_of_lt (accPos_getD hcond.2)
  · next hcond =>
    split
    · exact le_refl 0
    · split
      · exact le_max_left 0 _
      · split
        · exact le_max_left 0 _
        · exact le_refl 0

lemma calculateWorkSeconds_nonneg (checks : List EmployeeCheck)
    (status : WorkStatusType) (now : Int) :
    0 ≤ calculateWorkSeconds checks status now := by
  induction checks with
  | nil => exact le_refl 0
  | cons c rest ih =>
    have hc : (0 : Int) ≤
        if checkTypeLower c = "work" then getWorkDurationSeconds c status now else 0 := by
      split
      · exact getWorkDurationSeconds_nonneg c status now
      · exact le_refl 0
    exact add_nonneg hc ih

lemma calculateActivePauseSeconds_nonneg (checks : List EmployeeCheck) (now : Int) :
    0 ≤ calculateActivePauseSeconds checks now := by
  unfold calculateActivePauseSeconds
  split
  · exact le_refl 0
  · split
    · exact le_refl 0
    · split
      · exact le_refl 0
      · exact le_max_left 0 _

/-- Claim C9 counterexample: a closed work check with a positive
accumulatedSeconds but an absent checkIn date contributes that accumulated
value (500), not zero, to the work-seconds total. -/
theorem work_seconds_missing_start_counterexample :
    checkNoStart.checkIn = none ∧
    calculateWorkSeconds [checkNoStart] WorkStatusType.online 1000000 = 500 ∧
    calculateWorkSeconds [checkNoStart] WorkStatusType.online 1000000 ≠ 0 := by
  decide

/-- Claim C9 as amended: the work-seconds total and the active-pause seconds
are always non-negative (every per-check duration is floored at zero), and a
check whose start date is absent or unparseable contributes exactly zero
unless it is a closed check with a positive server-supplied
accumulatedSeconds, in which case it contributes that value. -/
theorem work_seconds_nonneg_amended (checks : List EmployeeCheck)
    (status : WorkStatusType) (now : Int) :
    0 ≤ calculateWorkSeconds checks status now ∧
    0 ≤ calculateActivePauseSeconds checks now ∧
    (∀ c, parseDate (c.checkIn.bind CheckMoment.date) = none →
      (c.checkOut.isSome && accPos c) = false →
      getWorkDurationSeconds c status now = 0) := by
  refine ⟨calculateWorkSeconds_nonneg checks status now,
    calculateActivePauseSeconds_nonneg checks now, ?_⟩
  intro c h1 h2
  simp [getWorkDurationSeconds, h1, h2]

/-- Witness for the amended C9 at a concrete input. -/
theorem work_seconds_nonneg_amended_witness :
    0 ≤ calculateWorkSeconds [checkNoStart, pauseCheck] WorkStatusType.paused 5 ∧
    getWorkDurationSeconds checkOpenNoDate WorkStatusType.paused 5 = 0 := by
  have h := work_seconds_nonneg_amended [checkNoStart, pauseCheck] WorkStatusType.paused 5
  exact ⟨h.1, h.2.2 checkOpenNoDate rfl rfl⟩

/-- Claim C10: a check counts toward the work-seconds total exactly when its
checkType is a string equal to "work" ignoring case (the total is the sum
over precisely those checks); the active-pause seconds are derived from the
first check whose checkType is a string equal to "pause" ignoring case with a
null checkOut, and are zero when no such check exists; a check whose
checkType is not a string is skipped by both computations. -/
theorem check_type_matching (checks : List EmployeeCheck)
    (status : WorkStatusType) (now : Int) :
    calculateWorkSeconds checks status now =
      ((checks.filter specIsWork).map
        (fun c => getWorkDurationSeconds c status now)).sum ∧
    (∀ c, checks.find? isActivePauseCheck = some c →
      (∃ t2, c.checkType = some t2 ∧ strLower t2 = "pause") ∧ c.checkOut = none) ∧
    ((∀ c ∈ checks, isActivePauseCheck c = false) →
      calculateActivePauseSeconds checks now = 0) ∧
    (∀ c rest, c.checkType = none →
      calculateWorkSeconds (c :: rest) status now =
        calculateWorkSeconds rest status now ∧
      isActivePauseCheck c = false) := by
  refine ⟨?_, ?_, ?_, ?_⟩
  · induction checks with
    | nil => simp [calculateWorkSeconds]
    | cons c rest ih =>
      by_cases hw : specIsWork c = true
      · simp only [calculateWorkSeconds, List.filter_cons, hw, if_true,
          List.map_cons, List.sum_cons]
        rw [if_pos ((work_iff c).mpr hw), ih]
      · have hw2 : specIsWork c = false := Bool.eq_false_iff.mpr hw
        simp only [calculateWorkSeconds, List.filter_cons, hw2, Bool.false_eq_true,
          if_false]
        rw [if_neg (fun hcw => hw ((work_iff c).mp hcw)), ih]
        exact zero_add _
  · intro c hfind
    have hpred := List.find?_some hfind
    cases hct : c.checkType with
    | none => simp [isActivePauseCheck, hct] at hpred
    | some t2 =>
      simp [isActivePauseCheck, hct] at hpred
      exact ⟨⟨t2, rfl, hpred.1⟩, hpred.2⟩
  · intro hall
    have hnone : checks.find? isActivePauseCheck = none :=
      List.find?_eq_none.mpr (fun c hc => by simp [hall c hc])
    simp [calculateActivePauseSeconds, hnone]
  · intro c rest hct
    have hne : ¬ (checkTypeLower c = "work") := by
      simp only [checkTypeLower, hct]
      decide
    constructor
    · simp only [calculateWorkSeconds]
      rw [if_neg hne]
      exact zero_add _
    · simp [isActivePauseCheck, hct]

/-- Witness for C10 at a concrete input: a pause check and a work check. -/
theorem check_type_matching_witness :
    calculateWorkSeconds [pauseCheck, checkAccum] WorkStatusType.online 7 =
      (([pauseCheck, checkAccum].filter specIsWork).map
        (fun c => getWorkDurationSeconds c WorkStatusType.online 7)).sum ∧
    (∃ t2, pauseCheck.checkType = some t2 ∧ strLower t2 = "pause") ∧
    pauseCheck.checkOut = none := by
  have h := check_type_matching [pauseCheck, checkAccum] WorkStatusType.online 7
  have h2 := h.2.1 pauseCheck rfl
  exact ⟨h.1, h2.1, h2.2⟩

end Sesame
